import Mathlib

/-!
# OpenClaw config integrity: recovery engine, write guard, startup gate

Shallow embedding of the config backup-recovery engine
(`src/config/recovery.ts`), the write-integrity guard
(`validateConfigWriteIntegrity`) and the startup gate
(`src/cli/program/config-guard.ts`).

Modelling choices:
* The filesystem is a partial map from paths to file contents
  (`FS := String → Option String`).  `existsSync` is definedness,
  `readFileSync` is lookup, `rename`/`copyFile` are functional updates.
* The injected dependencies (`json5.parse`, the external
  `validateConfigObjectRaw`, and the possibility that `readFileSync`,
  `rename` or `copyFile` throw) are collected in a `Deps` record.  A
  `none`/`true` result models a thrown exception at the corresponding
  call site; the control flow of the `try`/`catch` blocks is translated
  explicitly.
* `CONFIG_BACKUP_COUNT` (imported from `backup-rotation.js`, external to
  the embedded sources) is a parameter `N` of the enumerator.
* JavaScript number comparisons (`retentionRatio < 0.4`,
  `length * 0.3`) are modelled over `ℚ`.
-/

/-- A filesystem state: paths mapped to file contents. -/
def FS : Type := String → Option String

/-- `fs.existsSync`. -/
def FS.existsF (fs : FS) (p : String) : Bool := (fs p).isSome

/-- Write (create or overwrite) a file. -/
def FS.writeF (fs : FS) (p content : String) : FS :=
  fun q => if q = p then some content else fs q

/-- Remove a file. -/
def FS.removeF (fs : FS) (p : String) : FS :=
  fun q => if q = p then none else fs q

/-- `fs.promises.rename src dst` (successful case): move the file. -/
def FS.renameF (fs : FS) (src dst : String) : FS :=
  match fs src with
  | some content => (fs.removeF src).writeF dst content
  | none => fs

/-- `fs.promises.copyFile src dst` (successful case): duplicate the file. -/
def FS.copyF (fs : FS) (src dst : String) : FS :=
  match fs src with
  | some content => fs.writeF dst content
  | none => fs

/-- Injected dependencies of the recovery engine: the JSON5 parser, the
external raw config validator, and failure oracles for the fallible
filesystem operations (`true`/`none` models a thrown exception). -/
structure Deps (π α : Type) where
  /-- `json5.parse`; `none` models a thrown parse error. -/
  parse : String → Option π
  /-- external `validateConfigObjectRaw`; `some config` models `ok: true`. -/
  validateConfigObjectRaw : π → Option α
  /-- does `readFileSync` throw for this path? -/
  readFails : String → Bool
  /-- does `fs.promises.rename src dst` throw? -/
  renameFails : String → String → Bool
  /-- does `fs.promises.copyFile src dst` throw? -/
  copyFails : String → String → Bool

/-- One rotation slot (`buildBackupCandidates` element). -/
structure Candidate where
  path : String
  label : String
deriving DecidableEq, Repr

/-- A backup candidate that parsed and validated successfully. -/
structure RecoveryCandidate (α : Type) where
  path : String
  label : String
  config : α
deriving DecidableEq, Repr

/-- Result of `tryRecoverConfigFromBackup`: the TS union discriminated by
`recovered`. -/
inductive RecoveryResult (α : Type) where
  | success (candidate : RecoveryCandidate α) (backupsChecked : Nat)
  | failure (backupsChecked : Nat) (reason : String)
deriving DecidableEq, Repr

/-- Does the result carry `recovered: true`? -/
def RecoveryResult.isRecovered : RecoveryResult α → Bool
  | .success _ _ => true
  | .failure _ _ => false

/-- `buildBackupCandidates`: slot 0 is `<path>.bak`, slots `1 .. N-1` are
`<path>.bak.<i>`; `N` models the external `CONFIG_BACKUP_COUNT`. -/
def buildBackupCandidates (N : Nat) (configPath : String) : List Candidate :=
  { path := configPath ++ ".bak", label := ".bak (most recent)" } ::
    (List.range (N - 1)).map (fun i =>
      { path := configPath ++ ".bak." ++ toString (i + 1),
        label := ".bak." ++ toString (i + 1) })

/-- The body of the shared `try` pattern: read the candidate's raw text,
parse it, validate it.  `none` models a read exception, parse exception,
or `validated.ok === false`; in every caller all three lead to the same
"skip this candidate" continuation. -/
def readParseValidate (d : Deps π α) (fs : FS) (p : String) : Option α :=
  if d.readFails p then none
  else
    match fs p with
    | none => none
    | some raw =>
      match d.parse raw with
      | none => none
      | some parsed => d.validateConfigObjectRaw parsed

/-- Loop of `findValidBackup` over the candidate list. -/
def findValidBackupAux (d : Deps π α) (fs : FS) :
    List Candidate → Option (RecoveryCandidate α)
  | [] => none
  | c :: rest =>
    if fs.existsF c.path then
      match readParseValidate d fs c.path with
      | some config => some { path := c.path, label := c.label, config := config }
      | none => findValidBackupAux d fs rest
    else findValidBackupAux d fs rest

/-- `findValidBackup`: first backup that exists, parses and validates. -/
def findValidBackup (N : Nat) (d : Deps π α) (configPath : String) (fs : FS) :
    Option (RecoveryCandidate α) :=
  findValidBackupAux d fs (buildBackupCandidates N configPath)

/-- The quarantine step of `tryRecoverConfigFromBackup`: move the corrupted
primary aside (rename, falling back to copy).  `none` models the case where
the rename throws and the fallback copy also throws, propagating to the
outer `catch`. -/
def quarantineStep (d : Deps π α) (configPath corruptedPath : String) (fs : FS) :
    Option FS :=
  if fs.existsF configPath then
    if d.renameFails configPath corruptedPath then
      if d.copyFails configPath corruptedPath then none
      else some (fs.copyF configPath corruptedPath)
    else some (fs.renameF configPath corruptedPath)
  else some fs

/-- Loop of `tryRecoverConfigFromBackup` over the candidate list, threading
the filesystem state and the `backupsChecked` counter. -/
def tryRecoverAux (d : Deps π α) (configPath : String) :
    List Candidate → FS → Nat → RecoveryResult α × FS
  | [], fs, backupsChecked =>
    (.failure backupsChecked
      (if backupsChecked == 0 then "no backup files found"
       else "all backup files are invalid or unreadable"), fs)
  | c :: rest, fs, backupsChecked =>
    if fs.existsF c.path then
      let backupsChecked := backupsChecked + 1
      match readParseValidate d fs c.path with
      | none => tryRecoverAux d configPath rest fs backupsChecked
      | some config =>
        let corruptedPath := configPath ++ ".corrupted"
        match quarantineStep d configPath corruptedPath fs with
        | none => tryRecoverAux d configPath rest fs backupsChecked
        | some fs2 =>
          if d.copyFails c.path configPath then
            tryRecoverAux d configPath rest fs2 backupsChecked
          else
            (.success { path := c.path, label := c.label, config := config }
              backupsChecked, fs2.copyF c.path configPath)
    else tryRecoverAux d configPath rest fs backupsChecked

/-- `tryRecoverConfigFromBackup`: returns the `RecoveryResult` together with
the final filesystem state. -/
def tryRecoverConfigFromBackup (N : Nat) (d : Deps π α) (configPath : String)
    (fs : FS) : RecoveryResult α × FS :=
  tryRecoverAux d configPath (buildBackupCandidates N configPath) fs 0

/-! ## Write-integrity guard (`validateConfigWriteIntegrity`) -/

/-- A JavaScript JSON-like value (the guard's `unknown` arguments). -/
inductive JValue where
  | null
  | bool (b : Bool)
  | num (n : Int)
  | str (s : String)
  | arr (elems : List JValue)
  | obj (fields : List (String × JValue))

/-- JSON string escaping for one character (as `JSON.stringify` does for
the characters that occur in config data). -/
def JValue.escapeChar (c : Char) : String :=
  if c = '"' then "\\\""
  else if c = '\\' then "\\\\"
  else if c = '\n' then "\\n"
  else if c = '\t' then "\\t"
  else if c = '\r' then "\\r"
  else String.singleton c

/-- Quote and escape a string as `JSON.stringify` renders it. -/
def JValue.quoteString (s : String) : String :=
  "\"" ++ String.join (s.data.map JValue.escapeChar) ++ "\""

mutual

/-- `JSON.stringify` (compact form, as called by the guard). -/
def JValue.stringify : JValue → String
  | .null => "null"
  | .bool true => "true"
  | .bool false => "false"
  | .num n => toString n
  | .str s => JValue.quoteString s
  | .arr elems => "[" ++ JValue.stringifyElems elems ++ "]"
  | .obj fields => "\x7b" ++ JValue.stringifyFields fields ++ "\x7d"

/-- Comma-separated rendering of array elements. -/
def JValue.stringifyElems : List JValue → String
  | [] => ""
  | [v] => JValue.stringify v
  | v :: rest => JValue.stringify v ++ "," ++ JValue.stringifyElems rest

/-- Comma-separated rendering of object fields. -/
def JValue.stringifyFields : List (String × JValue) → String
  | [] => ""
  | [(k, v)] => JValue.quoteString k ++ ":" ++ JValue.stringify v
  | (k, v) :: rest =>
    JValue.quoteString k ++ ":" ++ JValue.stringify v ++ "," ++
      JValue.stringifyFields rest

end

/-- `isPlainObject`: a non-null, non-array `object`. -/
def isPlainObject : JValue → Bool
  | .obj _ => true
  | _ => false

/-- The fixed critical top-level key vocabulary, in source order. -/
def CRITICAL_TOP_LEVEL_KEYS : List String :=
  ["agents", "gateway", "models", "channels", "auth", "plugins",
   "tools", "skills", "session", "messages", "commands"]

/-- Violation discriminant (`WriteGuardViolation.code`). -/
inductive ViolationCode where
  | droppedCriticalKeys
  | excessiveKeyLoss
  | excessiveSizeDrop
deriving DecidableEq, Repr

/-- The structured `details` payload of each violation kind. -/
inductive ViolationDetails where
  | dropped (droppedKeys : List String)
  | keyLoss (currentKeyCount retainedKeyCount : Nat) (retentionRatio : ℚ)
  | sizeDrop (previousSize proposedSize : Nat)
deriving DecidableEq, Repr

/-- One detected destructive-overwrite condition. -/
structure WriteGuardViolation where
  code : ViolationCode
  message : String
  details : Option ViolationDetails
deriving DecidableEq, Repr

/-- Caller options of the guard. -/
structure WriteGuardOptions where
  force : Bool := false
  source : Option String := none

/-- Guard outcome; the TS union discriminated by `safe` (the safe variant
carries no violations). -/
structure WriteGuardResult where
  safe : Bool
  violations : List WriteGuardViolation
  warnings : List String
deriving DecidableEq, Repr

/-- `validateConfigWriteIntegrity`: compares the proposed config against
the current one with three overwrite heuristics plus soft warnings. -/
def validateConfigWriteIntegrity (current proposed : JValue)
    (options : WriteGuardOptions) : WriteGuardResult :=
  if options.force then { safe := true, violations := [], warnings := [] }
  else
    match current, proposed with
    | .obj currentFields, .obj proposedFields =>
      let currentKeys := (currentFields.map Prod.fst).eraseDups
      let proposedKeys := (proposedFields.map Prod.fst).eraseDups
      let sourceLabel :=
        match options.source with
        | some s => " (source: " ++ s ++ ")"
        | none => ""
      let droppedCritical := CRITICAL_TOP_LEVEL_KEYS.filter
        (fun key => currentKeys.contains key && !proposedKeys.contains key)
      let violations : List WriteGuardViolation := []
      let violations :=
        if droppedCritical.length > 0 then
          violations ++
            [{ code := .droppedCriticalKeys,
               message := "Config write would remove critical top-level keys: " ++
                 String.intercalate ", " droppedCritical ++ sourceLabel ++
                 ". Use config.patch for partial updates instead of replacing the entire config.",
               details := some (.dropped droppedCritical) }]
        else violations
      let violations :=
        if currentKeys.length ≥ 3 then
          let retained := (currentKeys.filter (fun key => proposedKeys.contains key)).length
          let retentionRatio : ℚ := (retained : ℚ) / (currentKeys.length : ℚ)
          if retentionRatio < 0.4 then
            violations ++
              [{ code := .excessiveKeyLoss,
                 message := "Config write would drop " ++
                   toString (currentKeys.length - retained) ++ " of " ++
                   toString currentKeys.length ++ " top-level keys" ++ sourceLabel ++
                   ". This looks like an accidental overwrite. Use config.patch for partial updates.",
                 details := some (.keyLoss currentKeys.length retained retentionRatio) }]
          else violations
        else violations
      let currentJson := JValue.stringify current
      let proposedJson := JValue.stringify proposed
      let violations :=
        if currentJson.length ≥ 512 ∧
            (proposedJson.length : ℚ) < (currentJson.length : ℚ) * 0.3 then
          violations ++
            [{ code := .excessiveSizeDrop,
               message := "Config write would shrink config from " ++
                 toString currentJson.length ++ " to " ++ toString proposedJson.length ++
                 " bytes" ++ sourceLabel ++ ". This looks like an accidental overwrite.",
               details := some (.sizeDrop currentJson.length proposedJson.length) }]
        else violations
      let droppedNonCritical := currentKeys.filter
        (fun key => !CRITICAL_TOP_LEVEL_KEYS.contains key &&
          !proposedKeys.contains key && key != "meta")
      let warnings : List String :=
        if droppedNonCritical.length > 0 then
          ["Config write will remove non-critical keys: " ++
            String.intercalate ", " droppedNonCritical]
        else []
      if violations.length > 0 then
        { safe := false, violations := violations, warnings := warnings }
      else { safe := true, violations := [], warnings := warnings }
    | _, _ => { safe := true, violations := [], warnings := [] }

/-! ## Startup gate (`ensureConfigReady`) -/

/-- One structured issue of a snapshot (`{path, message}`). -/
structure Issue where
  path : String
  message : String
deriving DecidableEq, Repr

/-- Result of reading and validating the primary config file. -/
structure ConfigSnapshot where
  path : String
  «exists» : Bool
  valid : Bool
  issues : List Issue
  legacyIssues : List Issue

/-- `ALLOWED_INVALID_COMMANDS`. -/
def ALLOWED_INVALID_COMMANDS : List String :=
  ["doctor", "logs", "health", "help", "status"]

/-- `ALLOWED_INVALID_GATEWAY_SUBCOMMANDS`. -/
def ALLOWED_INVALID_GATEWAY_SUBCOMMANDS : List String :=
  ["status", "probe", "health", "discover", "call", "install", "uninstall",
   "start", "stop", "restart"]

/-- `formatConfigIssues` (the `issue.path || "<root>"` fallback models the
JavaScript falsiness of the empty string). -/
def formatConfigIssues (issues : List Issue) : List String :=
  issues.map (fun issue =>
    "- " ++ (if issue.path = "" then "<root>" else issue.path) ++ ": " ++ issue.message)

/-- The `allowInvalid` condition of `ensureConfigReady`: `commandName` and
`subcommandName` are `commandPath[0]`/`commandPath[1]`; an absent or empty
segment is falsy. -/
def allowInvalidFor (commandPath : List String) : Bool :=
  match commandPath[0]? with
  | none => false
  | some commandName =>
    if commandName = "" then false
    else
      ALLOWED_INVALID_COMMANDS.contains commandName ||
        (commandName == "gateway" &&
          (match commandPath[1]? with
           | none => false
           | some subcommandName =>
             if subcommandName = "" then false
             else ALLOWED_INVALID_GATEWAY_SUBCOMMANDS.contains subcommandName))

/-- One `params.runtime.error(...)` emission of the gate, identified
symbolically (terminal colouring is external rendering). -/
inductive DiagEvent where
  | restoredHeading
  | restoredFrom (label : String)
  | corruptedSavedTo (path : String)
  | restoredDoctorHint
  | configInvalidHeading
  | configFile (path : String)
  | problems (issues : List String)
  | legacyProblems (issues : List String)
  | backupsCheckedCount (n : Nat)
  | noBackupsAvailable
  | blankLine
  | doctorFixHint
deriving DecidableEq, Repr

/-- Observable outcome of one `ensureConfigReady` call: the diagnostics
emitted, whether `runtime.exit` was invoked (and with which status),
whether recovery was attempted, and the final filesystem state. -/
structure GuardResult where
  events : List DiagEvent
  exited : Option Nat
  recoveryAttempted : Bool
  finalFs : FS

/-- `ensureConfigReady`, with the snapshot read and the recovery engine's
dependencies passed explicitly.  The one-time external migration flow
(`loadAndMaybeMigrateDoctorConfig`) is out of scope: it neither returns
early nor changes the gate's decision. -/
def ensureConfigReady (N : Nat) (d : Deps π α) (commandPath : List String)
    (snapshot : ConfigSnapshot) (fs : FS) : GuardResult :=
  let allowInvalid := allowInvalidFor commandPath
  let issues :=
    if snapshot.«exists» && !snapshot.valid then formatConfigIssues snapshot.issues
    else []
  let legacyIssues :=
    if snapshot.legacyIssues.length > 0 then
      snapshot.legacyIssues.map (fun issue => "- " ++ issue.path ++ ": " ++ issue.message)
    else []
  let invalid := snapshot.«exists» && !snapshot.valid
  if !invalid then
    { events := [], exited := none, recoveryAttempted := false, finalFs := fs }
  else
    match tryRecoverConfigFromBackup N d snapshot.path fs with
    | (.success candidate _, fs2) =>
      { events :=
          [.restoredHeading, .restoredFrom candidate.label,
           .corruptedSavedTo (snapshot.path ++ ".corrupted"), .restoredDoctorHint],
        exited := none, recoveryAttempted := true, finalFs := fs2 }
    | (.failure backupsChecked _, fs2) =>
      { events :=
          [.configInvalidHeading, .configFile snapshot.path] ++
            (if issues.length > 0 then [.problems issues] else []) ++
            (if legacyIssues.length > 0 then [.legacyProblems legacyIssues] else []) ++
            (if backupsChecked > 0 then [.backupsCheckedCount backupsChecked]
             else [.noBackupsAvailable]) ++
            [.blankLine, .doctorFixHint],
        exited := if !allowInvalid then some 1 else none,
        recoveryAttempted := true, finalFs := fs2 }

/-! ## Helper lemmas: filesystem frame properties -/

theorem FS.writeF_apply_ne (fs : FS) (p content q : String) (h : q ≠ p) :
    fs.writeF p content q = fs q := by
  simp [FS.writeF, h]

theorem FS.removeF_apply_ne (fs : FS) (p q : String) (h : q ≠ p) :
    fs.removeF p q = fs q := by
  simp [FS.removeF, h]

theorem FS.copyF_apply_ne (fs : FS) (src dst q : String) (h : q ≠ dst) :
    fs.copyF src dst q = fs q := by
  unfold FS.copyF
  cases hsrc : fs src with
  | none => rfl
  | some content => exact fs.writeF_apply_ne dst content q h

theorem FS.renameF_apply_ne (fs : FS) (src dst q : String) (hs : q ≠ src)
    (hd : q ≠ dst) : fs.renameF src dst q = fs q := by
  unfold FS.renameF
  cases hsrc : fs src with
  | none => rfl
  | some content =>
    show (fs.removeF src).writeF dst content q = fs q
    rw [(fs.removeF src).writeF_apply_ne dst content q hd,
      fs.removeF_apply_ne src q hs]

theorem quarantineStep_apply_ne (d : Deps π α) (configPath corruptedPath : String)
    (fs fs2 : FS) (h : quarantineStep d configPath corruptedPath fs = some fs2)
    (q : String) (h1 : q ≠ configPath) (h2 : q ≠ corruptedPath) : fs2 q = fs q := by
  unfold quarantineStep at h
  split at h
  · split at h
    · split at h
      · exact absurd h (by simp)
      · injection h with h
        rw [← h]
        exact fs.copyF_apply_ne configPath corruptedPath q h2
    · injection h with h
      rw [← h]
      exact fs.renameF_apply_ne configPath corruptedPath q h1 h2
  · injection h with h
    rw [← h]

/-! ## Helper lemmas: backup candidate paths are disjoint from the primary
and quarantine paths -/

theorem string_append_left_cancel {p a b : String} (h : p ++ a = p ++ b) :
    a = b := by
  apply String.ext
  have hd := congrArg String.data h
  rw [String.data_append, String.data_append] at hd
  exact List.append_cancel_left hd

theorem buildBackupCandidates_path_ne (N : Nat) (p : String) :
    ∀ c ∈ buildBackupCandidates N p, c.path ≠ p ∧ c.path ≠ p ++ ".corrupted" := by
  intro c hc
  unfold buildBackupCandidates at hc
  rcases List.mem_cons.mp hc with h | h
  · subst h
    refine ⟨fun h => ?_, fun h => ?_⟩
    · have := congrArg String.length h
      rw [String.length_append] at this
      rw [show (".bak" : String).length = 4 from by decide] at this
      omega
    · have := string_append_left_cancel h
      exact absurd this (by decide)
  · rcases List.mem_map.mp h with ⟨i, _, hi⟩
    rw [← hi]
    refine ⟨fun h => ?_, fun h => ?_⟩
    · have := congrArg String.length h
      rw [String.length_append, String.length_append] at this
      rw [show (".bak." : String).length = 5 from by decide] at this
      omega
    · rw [String.append_assoc] at h
      have h2 := string_append_left_cancel h
      have hd := congrArg String.data h2
      rw [String.data_append] at hd
      rw [show (".bak." : String).data = ['.', 'b', 'a', 'k', '.'] from by decide,
        show (".corrupted" : String).data =
          ['.', 'c', 'o', 'r', 'r', 'u', 'p', 't', 'e', 'd'] from by decide] at hd
      simp at hd

/-! ## Helper lemmas: key sets and scan order -/

theorem mem_eraseDups_loop {α : Type _} [BEq α] [LawfulBEq α]
    (as : List α) (bs : List α) (a : α) :
    a ∈ List.eraseDups.loop as bs ↔ a ∈ as ∨ a ∈ bs := by
  induction as generalizing bs with
  | nil => simp [List.eraseDups.loop]
  | cons x xs ih =>
    rw [List.eraseDups.loop]
    cases helem : bs.elem x with
    | true =>
      rw [ih]
      have hx : x ∈ bs := List.elem_iff.mp helem
      constructor
      · rintro (h | h)
        · exact Or.inl (List.mem_cons_of_mem x h)
        · exact Or.inr h
      · rintro (h | h)
        · rcases List.mem_cons.mp h with rfl | h
          · exact Or.inr hx
          · exact Or.inl h
        · exact Or.inr h
    | false =>
      rw [ih]
      constructor
      · rintro (h | h)
        · exact Or.inl (List.mem_cons_of_mem x h)
        · rcases List.mem_cons.mp h with rfl | h
          · exact Or.inl (List.mem_cons_self a xs)
          · exact Or.inr h
      · rintro (h | h)
        · rcases List.mem_cons.mp h with rfl | h
          · exact Or.inr (List.mem_cons_self a bs)
          · exact Or.inl h
        · exact Or.inr (List.mem_cons_of_mem x h)

theorem mem_eraseDups {α : Type _} [BEq α] [LawfulBEq α] (l : List α) (a : α) :
    a ∈ l.eraseDups ↔ a ∈ l := by
  rw [List.eraseDups, mem_eraseDups_loop]
  simp

/-- A rotation slot is usable when its file exists and its content parses
and validates. -/
def usableCandidate (d : Deps π α) (fs : FS) (c : Candidate) : Bool :=
  fs.existsF c.path && (readParseValidate d fs c.path).isSome

theorem findValidBackupAux_eq_find? (d : Deps π α) (fs : FS) (l : List Candidate) :
    findValidBackupAux d fs l =
      (l.find? (usableCandidate d fs)).bind
        (fun c => (readParseValidate d fs c.path).map
          (fun config => { path := c.path, label := c.label, config := config })) := by
  induction l with
  | nil => rfl
  | cons c rest ih =>
    rw [findValidBackupAux]
    cases hex : fs.existsF c.path with
    | false =>
      rw [List.find?_cons_of_neg rest (by simp [usableCandidate, hex]), ← ih]
      simp
    | true =>
      cases hrv : readParseValidate d fs c.path with
      | none =>
        rw [List.find?_cons_of_neg rest (by simp [usableCandidate, hex, hrv]), ← ih]
        simp [hrv]
      | some config =>
        rw [List.find?_cons_of_pos rest (by simp [usableCandidate, hex, hrv])]
        simp [hrv]

/-! ## Helper lemmas: the recovery loop -/

theorem tryRecoverAux_failure_spec (d : Deps π α) (configPath : String)
    (l : List Candidate)
    (hpaths : ∀ c ∈ l, c.path ≠ configPath ∧ c.path ≠ configPath ++ ".corrupted") :
    ∀ (fs : FS) (k n : Nat) (reason : String) (fs' : FS),
      tryRecoverAux d configPath l fs k = (.failure n reason, fs') →
      n = k + (l.filter (fun c => fs.existsF c.path)).length ∧
      reason = (if n == 0 then "no backup files found"
                else "all backup files are invalid or unreadable") := by
  induction l with
  | nil =>
    intro fs k n reason fs' h
    rw [tryRecoverAux] at h
    simp only [Prod.mk.injEq, RecoveryResult.failure.injEq] at h
    obtain ⟨⟨hk, hr⟩, _⟩ := h
    subst hk
    exact ⟨by simp, hr.symm⟩
  | cons c rest ih =>
    intro fs k n reason fs' h
    have hrest : ∀ x ∈ rest, x.path ≠ configPath ∧
        x.path ≠ configPath ++ ".corrupted" :=
      fun x hx => hpaths x (List.mem_cons_of_mem c hx)
    rw [tryRecoverAux] at h
    cases hex : fs.existsF c.path with
    | false =>
      simp only [hex, Bool.false_eq_true, if_false] at h
      have := ih hrest fs k n reason fs' h
      simpa [List.filter_cons, hex] using this
    | true =>
      simp only [hex, if_true] at h
      cases hrv : readParseValidate d fs c.path with
      | none =>
        simp only [hrv] at h
        have := ih hrest fs (k + 1) n reason fs' h
        refine ⟨?_, this.2⟩
        rw [this.1]
        simp [List.filter_cons, hex]
        omega
      | some config =>
        simp only [hrv] at h
        cases hq : quarantineStep d configPath (configPath ++ ".corrupted") fs with
        | none =>
          simp only [hq] at h
          have := ih hrest fs (k + 1) n reason fs' h
          refine ⟨?_, this.2⟩
          rw [this.1]
          simp [List.filter_cons, hex]
          omega
        | some fs2 =>
          simp only [hq] at h
          cases hcf : d.copyFails c.path configPath with
          | false =>
            simp only [hcf, Bool.false_eq_true, if_false] at h
            exact absurd h (by simp)
          | true =>
            simp only [hcf, if_true] at h
            have := ih hrest fs2 (k + 1) n reason fs' h
            have hframe : ∀ x ∈ rest,
                (fun c => fs2.existsF c.path) x = (fun c => fs.existsF c.path) x := by
              intro x hx
              have hp := hrest x hx
              have hlook := quarantineStep_apply_ne d configPath
                (configPath ++ ".corrupted") fs fs2 hq x.path hp.1 hp.2
              simp [FS.existsF, hlook]
            refine ⟨?_, this.2⟩
            rw [this.1, List.filter_congr hframe]
            simp [List.filter_cons, hex]
            omega

theorem tryRecoverAux_noThrow_spec (d : Deps π α) (configPath : String)
    (hrn : ∀ a b, d.renameFails a b = false)
    (hcp : ∀ a b, d.copyFails a b = false) (l : List Candidate) :
    ∀ (fs : FS) (k : Nat),
      (match (tryRecoverAux d configPath l fs k).1 with
       | .success cand _ => findValidBackupAux d fs l = some cand
       | .failure _ _ => findValidBackupAux d fs l = none) := by
  induction l with
  | nil =>
    intro fs k
    rw [tryRecoverAux]
    rfl
  | cons c rest ih =>
    intro fs k
    rw [tryRecoverAux, findValidBackupAux]
    cases hex : fs.existsF c.path with
    | false =>
      simp only [hex, Bool.false_eq_true, if_false]
      exact ih fs k
    | true =>
      simp only [hex, if_true]
      cases hrv : readParseValidate d fs c.path with
      | none =>
        simp only [hrv]
        exact ih fs (k + 1)
      | some config =>
        have hq : quarantineStep d configPath (configPath ++ ".corrupted") fs =
            some (if fs.existsF configPath then
              fs.renameF configPath (configPath ++ ".corrupted") else fs) := by
          unfold quarantineStep
          rw [hrn]
          split <;> simp
        simp only [hrv, hq, hcp, Bool.false_eq_true, if_false]

/-! ## Concrete example inputs -/

/-- Dependencies where every `copyFile` call throws while `rename` succeeds;
only the content `"GOOD"` parses and validates. -/
def c1Deps : Deps Unit Nat where
  parse := fun raw => if raw = "GOOD" then some () else none
  validateConfigObjectRaw := fun _ => some 0
  readFails := fun _ => false
  renameFails := fun _ _ => false
  copyFails := fun _ _ => true

/-- Primary config corrupt, one valid backup in slot `.bak`. -/
def c1Fs : FS := fun p =>
  if p = "cfg" then some "CORRUPT"
  else if p = "cfg.bak" then some "GOOD"
  else none

/-- Dependencies with no filesystem failures; only `"VALID"` parses and
validates (to the config value `7`). -/
def c2Deps : Deps Unit Nat where
  parse := fun raw => if raw = "VALID" then some () else none
  validateConfigObjectRaw := fun _ => some 7
  readFails := fun _ => false
  renameFails := fun _ _ => false
  copyFails := fun _ _ => false

/-- `.bak` and `.bak.1` exist but are invalid, `.bak.2` is valid. -/
def c2Fs : FS := fun p =>
  if p = "cfg" then some "CORRUPT"
  else if p = "cfg.bak" then some "BROKEN"
  else if p = "cfg.bak.1" then some "BROKEN"
  else if p = "cfg.bak.2" then some "VALID"
  else none

/-! ## Claims about the recovery engine -/

/-- C1: the claim that a failure result implies no filesystem mutation is
falsified by the code: with a valid `.bak`, a successful quarantine rename
and a failing restore copy, `tryRecoverConfigFromBackup` returns the
failure variant yet the primary file has been renamed away (it existed
before the call with content `"CORRUPT"` and is absent afterwards, the
content surviving only in `cfg.corrupted`). -/
theorem tryRecover_failure_can_mutate_primary :
    (tryRecoverConfigFromBackup 2 c1Deps "cfg" c1Fs).1 =
      .failure 1 "all backup files are invalid or unreadable" ∧
    c1Fs "cfg" = some "CORRUPT" ∧
    (tryRecoverConfigFromBackup 2 c1Deps "cfg" c1Fs).2 "cfg" = none ∧
    (tryRecoverConfigFromBackup 2 c1Deps "cfg" c1Fs).2 "cfg.corrupted" =
      some "CORRUPT" := by
  refine ⟨by decide, by decide, by decide, by decide⟩

/-- C2: `findValidBackup` returns exactly the first rotation slot (in
`buildBackupCandidates` order) that exists and validates; when `rename` and
`copyFile` never throw, a successful `tryRecoverConfigFromBackup` restores
exactly that first usable slot; and on the concrete example where `.bak`
and `.bak.1` exist but are invalid and `.bak.2` is valid, the returned
label is `.bak.2` and full recovery reports `backupsChecked = 3`. -/
theorem backup_scan_tries_slots_in_order (N : Nat) (d : Deps π α)
    (configPath : String) (fs : FS)
    (hrn : ∀ a b, d.renameFails a b = false)
    (hcp : ∀ a b, d.copyFails a b = false) :
    (findValidBackup N d configPath fs =
      ((buildBackupCandidates N configPath).find? (usableCandidate d fs)).bind
        (fun c => (readParseValidate d fs c.path).map
          (fun config => { path := c.path, label := c.label, config := config }))) ∧
    (∀ cand n fs',
      tryRecoverConfigFromBackup N d configPath fs = (.success cand n, fs') →
      (buildBackupCandidates N configPath).find? (usableCandidate d fs) =
        some { path := cand.path, label := cand.label }) ∧
    (findValidBackup 3 c2Deps "cfg" c2Fs).map (fun c => c.label) = some ".bak.2" ∧
    (tryRecoverConfigFromBackup 3 c2Deps "cfg" c2Fs).1 =
      .success { path := "cfg.bak.2", label := ".bak.2", config := 7 } 3 := by
  refine ⟨findValidBackupAux_eq_find? d fs _, ?_, by decide, by decide⟩
  intro cand n fs' h
  have hspec := tryRecoverAux_noThrow_spec d configPath hrn hcp
    (buildBackupCandidates N configPath) fs 0
  have h1 : (tryRecoverAux d configPath (buildBackupCandidates N configPath)
      fs 0).1 = .success cand n := by
    rw [show tryRecoverAux d configPath (buildBackupCandidates N configPath) fs 0 =
      (.success cand n, fs') from h]
  rw [h1] at hspec
  have hspec2 : findValidBackupAux d fs (buildBackupCandidates N configPath) =
      some cand := hspec
  rw [findValidBackupAux_eq_find?, Option.bind_eq_some] at hspec2
  obtain ⟨c, hfind, hmap⟩ := hspec2
  rw [Option.map_eq_some'] at hmap
  obtain ⟨config, hrpv, hcand⟩ := hmap
  obtain ⟨cp, cl⟩ := c
  subst hcand
  simpa using hfind

/-- C3: every outcome of `tryRecoverConfigFromBackup` is a returned
`RecoveryResult` (the embedding is a total function); in the failure
variant, `backupsChecked` equals the number of rotation slots whose file
exists in the initial state, and the reason string is the no-backups
message exactly when that count is zero and the all-invalid message
exactly when it is positive. -/
theorem tryRecover_failure_counts_existing_slots (N : Nat) (d : Deps π α)
    (configPath : String) (fs : FS) (n : Nat) (reason : String) (fs' : FS)
    (h : tryRecoverConfigFromBackup N d configPath fs = (.failure n reason, fs')) :
    n = ((buildBackupCandidates N configPath).filter
          (fun c => fs.existsF c.path)).length ∧
    (reason = "no backup files found" ↔ n = 0) ∧
    (reason = "all backup files are invalid or unreadable" ↔ 0 < n) := by
  have hs := tryRecoverAux_failure_spec d configPath
    (buildBackupCandidates N configPath)
    (buildBackupCandidates_path_ne N configPath) fs 0 n reason fs' h
  refine ⟨by simpa using hs.1, ?_, ?_⟩
  · rw [hs.2]
    by_cases hn : n = 0
    · rw [if_pos (by simpa using hn)]
      simp [hn]
    · rw [if_neg (by simpa using hn)]
      exact iff_of_false (by decide) hn
  · rw [hs.2]
    by_cases hn : n = 0
    · rw [if_pos (by simpa using hn)]
      exact iff_of_false (by decide) (by omega)
    · rw [if_neg (by simpa using hn)]
      exact iff_of_true rfl (by omega)

/-- Witness for C2 at the concrete three-slot example. -/
theorem backup_scan_tries_slots_in_order_witness :
    (findValidBackup 3 c2Deps "cfg" c2Fs).map (fun c => c.label) = some ".bak.2" ∧
    (tryRecoverConfigFromBackup 3 c2Deps "cfg" c2Fs).1 =
      .success { path := "cfg.bak.2", label := ".bak.2", config := 7 } 3 := by
  have h := backup_scan_tries_slots_in_order 3 c2Deps "cfg" c2Fs
    (fun _ _ => rfl) (fun _ _ => rfl)
  exact ⟨h.2.2.1, h.2.2.2⟩

/-- Dependencies under which nothing parses (all backups invalid). -/
def c3Deps : Deps Unit Nat where
  parse := fun _ => none
  validateConfigObjectRaw := fun _ => some 0
  readFails := fun _ => false
  renameFails := fun _ _ => false
  copyFails := fun _ _ => false

/-- Primary corrupt; `.bak` exists (and is invalid); `.bak.1` missing. -/
def c3Fs : FS := fun p =>
  if p = "cfg" then some "CORRUPT"
  else if p = "cfg.bak" then some "BROKEN"
  else none

/-- Witness for C3: one existing (invalid) slot out of two. -/
theorem tryRecover_failure_counts_existing_slots_witness :
    1 = ((buildBackupCandidates 2 "cfg").filter
          (fun c => c3Fs.existsF c.path)).length ∧
    (("all backup files are invalid or unreadable" : String) =
        "no backup files found" ↔ 1 = 0) ∧
    (("all backup files are invalid or unreadable" : String) =
        "all backup files are invalid or unreadable" ↔ 0 < 1) := by
  have h1 : (tryRecoverConfigFromBackup 2 c3Deps "cfg" c3Fs).1 =
      .failure 1 "all backup files are invalid or unreadable" := by decide
  have h : tryRecoverConfigFromBackup 2 c3Deps "cfg" c3Fs =
      (.failure 1 "all backup files are invalid or unreadable",
        (tryRecoverConfigFromBackup 2 c3Deps "cfg" c3Fs).2) := by
    rw [← h1]
  exact tryRecover_failure_counts_existing_slots 2 c3Deps "cfg" c3Fs 1
    "all backup files are invalid or unreadable"
    (tryRecoverConfigFromBackup 2 c3Deps "cfg" c3Fs).2 h

/-- Dependencies with no filesystem failures for the refinement claim;
only `"VALID"` parses and validates (to the config value `9`). -/
def c10Deps : Deps Unit Nat where
  parse := fun raw => if raw = "VALID" then some () else none
  validateConfigObjectRaw := fun _ => some 9
  readFails := fun _ => false
  renameFails := fun _ _ => false
  copyFails := fun _ _ => false

/-- Primary corrupt, `.bak` valid. -/
def c10Fs : FS := fun p =>
  if p = "cfg" then some "CORRUPT"
  else if p = "cfg.bak" then some "VALID"
  else none

/-- C10: with pure deterministic injected dependencies whose `rename` and
`copyFile` never throw, `tryRecoverConfigFromBackup` succeeds exactly when
`findValidBackup` returns a candidate, and on success the restored
candidate (path, label, validated config) is `findValidBackup`'s result. -/
theorem tryRecover_refines_findValidBackup (N : Nat) (d : Deps π α)
    (configPath : String) (fs : FS)
    (hrn : ∀ a b, d.renameFails a b = false)
    (hcp : ∀ a b, d.copyFails a b = false) :
    ((tryRecoverConfigFromBackup N d configPath fs).1.isRecovered = true ↔
      (findValidBackup N d configPath fs).isSome = true) ∧
    (∀ cand n fs',
      tryRecoverConfigFromBackup N d configPath fs = (.success cand n, fs') →
      findValidBackup N d configPath fs = some cand) := by
  have hspec := tryRecoverAux_noThrow_spec d configPath hrn hcp
    (buildBackupCandidates N configPath) fs 0
  constructor
  · unfold tryRecoverConfigFromBackup findValidBackup
    cases htr : (tryRecoverAux d configPath (buildBackupCandidates N configPath)
        fs 0).1 with
    | success cand n =>
      rw [htr] at hspec
      have h2 : findValidBackupAux d fs (buildBackupCandidates N configPath) =
          some cand := hspec
      simp [RecoveryResult.isRecovered, h2]
    | failure n r =>
      rw [htr] at hspec
      have h2 : findValidBackupAux d fs (buildBackupCandidates N configPath) =
          none := hspec
      simp [RecoveryResult.isRecovered, h2]
  · intro cand n fs' h
    have h1 : (tryRecoverAux d configPath (buildBackupCandidates N configPath)
        fs 0).1 = .success cand n := by
      rw [show tryRecoverAux d configPath (buildBackupCandidates N configPath)
        fs 0 = (.success cand n, fs') from h]
    rw [h1] at hspec
    exact hspec

/-- Witness for C10 at a concrete one-backup filesystem. -/
theorem tryRecover_refines_findValidBackup_witness :
    ((tryRecoverConfigFromBackup 2 c10Deps "cfg" c10Fs).1.isRecovered = true ↔
      (findValidBackup 2 c10Deps "cfg" c10Fs).isSome = true) ∧
    (∀ cand n fs',
      tryRecoverConfigFromBackup 2 c10Deps "cfg" c10Fs = (.success cand n, fs') →
      findValidBackup 2 c10Deps "cfg" c10Fs = some cand) :=
  tryRecover_refines_findValidBackup 2 c10Deps "cfg" c10Fs
    (fun _ _ => rfl) (fun _ _ => rfl)

/-! ## Claims about the startup gate -/

theorem allowInvalidFor_iff (cp : List String) :
    allowInvalidFor cp = true ↔
      (∃ c, cp[0]? = some c ∧
        (c ∈ ALLOWED_INVALID_COMMANDS ∨
          (c = "gateway" ∧ ∃ s, cp[1]? = some s ∧
            s ∈ ALLOWED_INVALID_GATEWAY_SUBCOMMANDS))) := by
  unfold allowInvalidFor
  cases cp with
  | nil => simp
  | cons c rest =>
    simp only [List.getElem?_cons_zero, List.getElem?_cons_succ, Option.some.injEq]
    by_cases hc : c = ""
    · subst hc
      rw [if_pos rfl]
      simp [ALLOWED_INVALID_COMMANDS]
    · rw [if_neg hc]
      cases rest with
      | nil => simp [List.elem_iff]
      | cons s rest' =>
        simp only [List.getElem?_cons_zero, Option.some.injEq]
        by_cases hs : s = ""
        · subst hs
          simp [List.elem_iff, ALLOWED_INVALID_GATEWAY_SUBCOMMANDS]
        · simp [hs, List.elem_iff]

/-- C4: when the snapshot exists, is invalid, and recovery fails, the gate
exits with status 1 after printing diagnostics, except exactly when the
command's first segment is in the diagnostic allowlist or the command is
`gateway` with a subcommand in the gateway allowlist. -/
theorem ensureConfigReady_halts_unless_allowlisted (N : Nat) (d : Deps π α)
    (commandPath : List String) (snapshot : ConfigSnapshot) (fs : FS)
    (hex : snapshot.«exists» = true) (hval : snapshot.valid = false)
    (hfail : (tryRecoverConfigFromBackup N d snapshot.path fs).1.isRecovered
      = false) :
    ((ensureConfigReady N d commandPath snapshot fs).exited = none ↔
      (∃ c, commandPath[0]? = some c ∧
        (c ∈ ALLOWED_INVALID_COMMANDS ∨
          (c = "gateway" ∧ ∃ s, commandPath[1]? = some s ∧
            s ∈ ALLOWED_INVALID_GATEWAY_SUBCOMMANDS)))) ∧
    ((ensureConfigReady N d commandPath snapshot fs).exited = none ∨
      (ensureConfigReady N d commandPath snapshot fs).exited = some 1) ∧
    (ensureConfigReady N d commandPath snapshot fs).events ≠ [] := by
  have hinv : (snapshot.«exists» && !snapshot.valid) = true := by
    rw [hex, hval]
    rfl
  rcases htr : tryRecoverConfigFromBackup N d snapshot.path fs with ⟨res, fs2⟩
  cases res with
  | success cand n =>
    exfalso
    rw [htr] at hfail
    simp [RecoveryResult.isRecovered] at hfail
  | failure n r =>
    rw [← allowInvalidFor_iff]
    simp only [ensureConfigReady, hinv, Bool.not_true, Bool.false_eq_true,
      if_false, htr]
    cases hA : allowInvalidFor commandPath <;> simp [hA]

/-- Trivial dependencies for the gate examples: nothing parses, nothing
fails at the filesystem level. -/
def c4Deps : Deps Unit Nat where
  parse := fun _ => none
  validateConfigObjectRaw := fun _ => some 0
  readFails := fun _ => false
  renameFails := fun _ _ => false
  copyFails := fun _ _ => false

/-- No files at all: recovery can only fail. -/
def c4Fs : FS := fun _ => none

/-- An existing invalid snapshot for the gate example. -/
def c4Snap : ConfigSnapshot where
  path := "cfg"
  «exists» := true
  valid := false
  issues := [{ path := "agents", message := "bad" }]
  legacyIssues := []

/-- Witness for C4: the allowlisted `doctor` command proceeds. -/
theorem ensureConfigReady_halts_unless_allowlisted_witness :
    (ensureConfigReady 2 c4Deps ["doctor"] c4Snap c4Fs).exited = none := by
  have h := ensureConfigReady_halts_unless_allowlisted 2 c4Deps ["doctor"]
    c4Snap c4Fs rfl rfl (by decide)
  exact h.1.mpr ⟨"doctor", rfl, Or.inl (by decide)⟩

/-- C5: when the snapshot is absent or valid, the gate returns at once:
no diagnostics, no recovery attempt, no exit, unchanged filesystem. -/
theorem ensureConfigReady_returns_when_absent_or_valid (N : Nat) (d : Deps π α)
    (commandPath : List String) (snapshot : ConfigSnapshot) (fs : FS)
    (h : snapshot.«exists» = false ∨ snapshot.valid = true) :
    ensureConfigReady N d commandPath snapshot fs =
      { events := [], exited := none, recoveryAttempted := false, finalFs := fs } := by
  have hinv : (snapshot.«exists» && !snapshot.valid) = false := by
    rcases h with h | h <;> rw [h] <;> simp
  simp [ensureConfigReady, hinv]

/-- Trivial dependencies for the C5 example. -/
def c5Deps : Deps Unit Nat where
  parse := fun _ => none
  validateConfigObjectRaw := fun _ => some 0
  readFails := fun _ => false
  renameFails := fun _ _ => false
  copyFails := fun _ _ => false

/-- Empty filesystem for the C5 example. -/
def c5Fs : FS := fun _ => none

/-- A valid snapshot for the gate example. -/
def c5Snap : ConfigSnapshot where
  path := "cfg"
  «exists» := true
  valid := true
  issues := []
  legacyIssues := []

/-- Witness for C5 on a valid snapshot. -/
theorem ensureConfigReady_returns_when_absent_or_valid_witness :
    ensureConfigReady 2 c5Deps ["send"] c5Snap c5Fs =
      { events := [], exited := none, recoveryAttempted := false,
        finalFs := c5Fs } :=
  ensureConfigReady_returns_when_absent_or_valid 2 c5Deps ["send"] c5Snap c5Fs
    (Or.inr rfl)

/-! ## Helper lemmas: evaluating the write guard -/

/-- Top-level key set of an object's field list (`new Set(Object.keys(x))`,
in insertion order). -/
def keysOf (fields : List (String × JValue)) : List String :=
  (fields.map Prod.fst).eraseDups

/-- Critical keys present in `current` but absent from `proposed`. -/
def droppedCriticalOf (cf pf : List (String × JValue)) : List String :=
  CRITICAL_TOP_LEVEL_KEYS.filter
    (fun key => (keysOf cf).contains key && !(keysOf pf).contains key)

/-- Number of keys of `current` retained in `proposed`. -/
def retainedOf (cf pf : List (String × JValue)) : Nat :=
  ((keysOf cf).filter (fun key => (keysOf pf).contains key)).length

/-- Non-critical, non-`meta` keys of `current` absent from `proposed`. -/
def droppedNonCriticalOf (cf pf : List (String × JValue)) : List String :=
  (keysOf cf).filter
    (fun key => !CRITICAL_TOP_LEVEL_KEYS.contains key &&
      !(keysOf pf).contains key && key != "meta")

/-- The `(source: ...)` suffix of guard messages. -/
def sourceLabelOf (options : WriteGuardOptions) : String :=
  match options.source with
  | some s => " (source: " ++ s ++ ")"
  | none => ""

theorem writeGuard_violations_eval (cf pf : List (String × JValue))
    (options : WriteGuardOptions) (hf : options.force = false) :
    (validateConfigWriteIntegrity (.obj cf) (.obj pf) options).violations =
      (if (droppedCriticalOf cf pf).length > 0 then
        [{ code := .droppedCriticalKeys,
           message := "Config write would remove critical top-level keys: " ++
             String.intercalate ", " (droppedCriticalOf cf pf) ++
             sourceLabelOf options ++
             ". Use config.patch for partial updates instead of replacing the entire config.",
           details := some (.dropped (droppedCriticalOf cf pf)) }]
       else []) ++
      (if (keysOf cf).length ≥ 3 then
        (if ((retainedOf cf pf : ℚ) / ((keysOf cf).length : ℚ)) < 0.4 then
          [{ code := .excessiveKeyLoss,
             message := "Config write would drop " ++
               toString ((keysOf cf).length - retainedOf cf pf) ++ " of " ++
               toString (keysOf cf).length ++ " top-level keys" ++
               sourceLabelOf options ++
               ". This looks like an accidental overwrite. Use config.patch for partial updates.",
             details := some (.keyLoss (keysOf cf).length (retainedOf cf pf)
               ((retainedOf cf pf : ℚ) / ((keysOf cf).length : ℚ))) }]
         else [])
       else []) ++
      (if (JValue.stringify (.obj cf)).length ≥ 512 ∧
          ((JValue.stringify (.obj pf)).length : ℚ) <
            ((JValue.stringify (.obj cf)).length : ℚ) * 0.3 then
        [{ code := .excessiveSizeDrop,
           message := "Config write would shrink config from " ++
             toString (JValue.stringify (.obj cf)).length ++ " to " ++
             toString (JValue.stringify (.obj pf)).length ++ " bytes" ++
             sourceLabelOf options ++ ". This looks like an accidental overwrite.",
           details := some (.sizeDrop (JValue.stringify (.obj cf)).length
             (JValue.stringify (.obj pf)).length) }]
       else []) := by
  simp only [validateConfigWriteIntegrity, droppedCriticalOf, keysOf, retainedOf,
    sourceLabelOf, hf, Bool.false_eq_true, if_false]
  split_ifs <;> simp_all

theorem writeGuard_warnings_eval (cf pf : List (String × JValue))
    (options : WriteGuardOptions) (hf : options.force = false) :
    (validateConfigWriteIntegrity (.obj cf) (.obj pf) options).warnings =
      (if (droppedNonCriticalOf cf pf).length > 0 then
        ["Config write will remove non-critical keys: " ++
          String.intercalate ", " (droppedNonCriticalOf cf pf)]
       else []) := by
  simp only [validateConfigWriteIntegrity, droppedNonCriticalOf, keysOf,
    hf, Bool.false_eq_true, if_false]
  split_ifs <;> simp_all

/-! ## Claims about the write guard -/

/-- C6: with `force` unset, all three heuristics are evaluated and every
firing violation is collected (the violation list is the concatenation of
the three independent checks); when the set `D` of critical keys present
in `current` but absent from `proposed` is non-empty, the result contains
exactly one dropped-critical-keys violation listing exactly `D`. -/
theorem writeGuard_collects_all_violations (cf pf : List (String × JValue))
    (options : WriteGuardOptions) (hf : options.force = false) :
    ((validateConfigWriteIntegrity (.obj cf) (.obj pf) options).violations.map
        (fun v => v.code) =
      (if droppedCriticalOf cf pf ≠ [] then [ViolationCode.droppedCriticalKeys]
       else []) ++
      (if 3 ≤ (keysOf cf).length ∧
          ((retainedOf cf pf : ℚ) / ((keysOf cf).length : ℚ)) < 0.4 then
        [ViolationCode.excessiveKeyLoss]
       else []) ++
      (if 512 ≤ (JValue.stringify (.obj cf)).length ∧
          ((JValue.stringify (.obj pf)).length : ℚ) <
            ((JValue.stringify (.obj cf)).length : ℚ) * 0.3 then
        [ViolationCode.excessiveSizeDrop]
       else [])) ∧
    (droppedCriticalOf cf pf ≠ [] →
      ∃ m, (validateConfigWriteIntegrity (.obj cf) (.obj pf) options).violations.filter
          (fun v => v.code == ViolationCode.droppedCriticalKeys) =
        [{ code := ViolationCode.droppedCriticalKeys, message := m,
           details := some (.dropped (droppedCriticalOf cf pf)) }]) ∧
    (∀ k, k ∈ droppedCriticalOf cf pf ↔
      (k ∈ CRITICAL_TOP_LEVEL_KEYS ∧ k ∈ cf.map Prod.fst ∧
        k ∉ pf.map Prod.fst)) := by
  refine ⟨?_, ?_, ?_⟩
  · rw [writeGuard_violations_eval cf pf options hf]
    split_ifs <;>
      simp_all [List.length_pos, ge_iff_le]
  · intro hne
    refine ⟨"Config write would remove critical top-level keys: " ++
      String.intercalate ", " (droppedCriticalOf cf pf) ++ sourceLabelOf options ++
      ". Use config.patch for partial updates instead of replacing the entire config.", ?_⟩
    rw [writeGuard_violations_eval cf pf options hf]
    rw [if_pos (List.length_pos.mpr hne)]
    split_ifs <;>
      simp [List.filter_append,
        show (ViolationCode.droppedCriticalKeys == ViolationCode.droppedCriticalKeys)
          = true from rfl,
        show (ViolationCode.excessiveKeyLoss == ViolationCode.droppedCriticalKeys)
          = false from rfl,
        show (ViolationCode.excessiveSizeDrop == ViolationCode.droppedCriticalKeys)
          = false from rfl]
  · intro k
    simp [droppedCriticalOf, keysOf, List.mem_filter, List.elem_iff,
      mem_eraseDups, Bool.and_eq_true, Bool.not_eq_true']

/-- C7: with `force` unset, an excessive-key-loss violation is emitted iff
`current` has at least 3 top-level keys and the retention ratio
`retained / |keys(current)|` is below `0.4`; `retained` counts the keys of
`current` also present in `proposed`. -/
theorem writeGuard_excessiveKeyLoss_iff (cf pf : List (String × JValue))
    (options : WriteGuardOptions) (hf : options.force = false) :
    ((∃ v ∈ (validateConfigWriteIntegrity (.obj cf) (.obj pf) options).violations,
        v.code = ViolationCode.excessiveKeyLoss) ↔
      (3 ≤ (keysOf cf).length ∧
        ((retainedOf cf pf : ℚ) / ((keysOf cf).length : ℚ)) < 0.4)) ∧
    (∀ k, k ∈ keysOf cf ↔ k ∈ cf.map Prod.fst) ∧
    retainedOf cf pf =
      ((keysOf cf).filter (fun k => decide (k ∈ pf.map Prod.fst))).length := by
  refine ⟨?_, fun k => mem_eraseDups (cf.map Prod.fst) k, ?_⟩
  · rw [writeGuard_violations_eval cf pf options hf]
    split_ifs <;> simp_all [ge_iff_le]
  · unfold retainedOf
    congr 1
    apply List.filter_congr
    intro k _
    have hiff : ((keysOf pf).contains k = true) ↔ k ∈ pf.map Prod.fst :=
      Iff.trans List.elem_iff (mem_eraseDups (pf.map Prod.fst) k)
    by_cases hm : k ∈ pf.map Prod.fst
    · simp [hm, hiff.mpr hm, keysOf, mem_eraseDups]
    · simp only [hm, decide_False]
      cases hc : (keysOf pf).contains k
      · rfl
      · exact absurd (hiff.mp hc) hm

/-- C8: with `force` unset, an excessive-size-drop violation is emitted iff
the serialized `current` is at least 512 bytes and the serialized
`proposed` is strictly below 30% of it; under 512 bytes the violation
never fires. -/
theorem writeGuard_excessiveSizeDrop_iff (cf pf : List (String × JValue))
    (options : WriteGuardOptions) (hf : options.force = false) :
    (∃ v ∈ (validateConfigWriteIntegrity (.obj cf) (.obj pf) options).violations,
        v.code = ViolationCode.excessiveSizeDrop) ↔
      (512 ≤ (JValue.stringify (.obj cf)).length ∧
        ((JValue.stringify (.obj pf)).length : ℚ) <
          ((JValue.stringify (.obj cf)).length : ℚ) * 0.3) := by
  rw [writeGuard_violations_eval cf pf options hf]
  split_ifs <;> simp_all [ge_iff_le]

/-- C9: with `force` unset, if every top-level key of `current` is also a
key of `proposed`, the guard emits no dropped-critical-keys violation, no
excessive-key-loss violation and no warnings; every violation that can
remain is an excessive-size-drop one. -/
theorem writeGuard_key_superset_only_size_blocks (cf pf : List (String × JValue))
    (options : WriteGuardOptions) (hf : options.force = false)
    (hsub : ∀ k ∈ cf.map Prod.fst, k ∈ pf.map Prod.fst) :
    (∀ v ∈ (validateConfigWriteIntegrity (.obj cf) (.obj pf) options).violations,
      v.code = ViolationCode.excessiveSizeDrop) ∧
    (¬ ∃ v ∈ (validateConfigWriteIntegrity (.obj cf) (.obj pf) options).violations,
      v.code = ViolationCode.droppedCriticalKeys) ∧
    (¬ ∃ v ∈ (validateConfigWriteIntegrity (.obj cf) (.obj pf) options).violations,
      v.code = ViolationCode.excessiveKeyLoss) ∧
    (validateConfigWriteIntegrity (.obj cf) (.obj pf) options).warnings = [] := by
  have hkeys : ∀ k, (keysOf cf).contains k = true → (keysOf pf).contains k = true := by
    intro k hk
    have hmem : k ∈ cf.map Prod.fst :=
      (mem_eraseDups (cf.map Prod.fst) k).mp (List.elem_iff.mp hk)
    exact List.elem_iff.mpr ((mem_eraseDups (pf.map Prod.fst) k).mpr (hsub k hmem))
  have hdc : droppedCriticalOf cf pf = [] := by
    unfold droppedCriticalOf
    rw [List.filter_eq_nil_iff]
    intro k _
    intro hcontra
    rw [Bool.and_eq_true] at hcontra
    have := hkeys k hcontra.1
    rw [this] at hcontra
    simp at hcontra
  have hret : retainedOf cf pf = (keysOf cf).length := by
    unfold retainedOf
    have : (keysOf cf).filter (fun key => (keysOf pf).contains key) = keysOf cf :=
      List.filter_eq_self.mpr (fun a ha => hkeys a (List.elem_iff.mpr ha))
    rw [this]
  have hratio : ¬(((retainedOf cf pf : ℚ) / ((keysOf cf).length : ℚ)) < 0.4) ∨
      (keysOf cf).length < 3 := by
    by_cases h3 : 3 ≤ (keysOf cf).length
    · left
      rw [hret]
      have hne : (((keysOf cf).length : ℚ)) ≠ 0 := by
        exact_mod_cast Nat.pos_iff_ne_zero.mp (by omega)
      rw [div_self hne]
      norm_num
    · right
      omega
  have hwarn : droppedNonCriticalOf cf pf = [] := by
    unfold droppedNonCriticalOf
    rw [List.filter_eq_nil_iff]
    intro k hk
    intro hcontra
    rw [Bool.and_eq_true, Bool.and_eq_true] at hcontra
    have := hkeys k (List.elem_iff.mpr hk)
    rw [this] at hcontra
    simp at hcontra
  have hg2 : (if (keysOf cf).length ≥ 3 then
      (if ((retainedOf cf pf : ℚ) / ((keysOf cf).length : ℚ)) < 0.4 then
        [({ code := .excessiveKeyLoss,
            message := "Config write would drop " ++
              toString ((keysOf cf).length - retainedOf cf pf) ++ " of " ++
              toString (keysOf cf).length ++ " top-level keys" ++
              sourceLabelOf options ++
              ". This looks like an accidental overwrite. Use config.patch for partial updates.",
            details := some (.keyLoss (keysOf cf).length (retainedOf cf pf)
              ((retainedOf cf pf : ℚ) / ((keysOf cf).length : ℚ))) } :
          WriteGuardViolation)]
       else [])
     else []) = [] := by
    rcases hratio with hr | hr
    · split_ifs <;> simp_all
    · rw [if_neg (by omega)]
  refine ⟨?_, ?_, ?_, ?_⟩
  · intro v hv
    rw [writeGuard_violations_eval cf pf options hf, hdc, hg2] at hv
    simp at hv
    rw [hv.2]
  · rintro ⟨v, hv, hcode⟩
    rw [writeGuard_violations_eval cf pf options hf, hdc, hg2] at hv
    simp at hv
    rw [hv.2] at hcode
    simp at hcode
  · rintro ⟨v, hv, hcode⟩
    rw [writeGuard_violations_eval cf pf options hf, hdc, hg2] at hv
    simp at hv
    rw [hv.2] at hcode
    simp at hcode
  · rw [writeGuard_warnings_eval cf pf options hf, hwarn]
    simp

/-- Current config with one critical and one non-retained custom key. -/
def c6cur : List (String × JValue) := [("agents", .num 1), ("custom", .num 2)]

/-- Proposed config dropping the critical key `agents`. -/
def c6prop : List (String × JValue) := [("custom", .num 2)]

/-- Witness for C6: dropping `agents` yields exactly one
dropped-critical-keys violation listing exactly `["agents"]`. -/
theorem writeGuard_collects_all_violations_witness :
    ∃ m, ((validateConfigWriteIntegrity (.obj c6cur) (.obj c6prop)
        {}).violations.filter
        (fun v => v.code == ViolationCode.droppedCriticalKeys)) =
      [{ code := ViolationCode.droppedCriticalKeys, message := m,
         details := some (.dropped (droppedCriticalOf c6cur c6prop)) }] :=
  (writeGuard_collects_all_violations c6cur c6prop {} rfl).2.1 (by decide)

/-- Current config with exactly 7 critical top-level keys. -/
def c7cur : List (String × JValue) :=
  [("agents", .num 1), ("gateway", .num 2), ("models", .num 3),
   ("channels", .num 4), ("auth", .num 5), ("plugins", .num 6),
   ("tools", .num 7)]

/-- Proposed config retaining only 1 of the 7 keys. -/
def c7prop : List (String × JValue) := [("agents", .num 1)]

/-- Witness for C7: 7 keys with 1 retained (ratio 1/7) fires the
excessive-key-loss violation. -/
theorem writeGuard_excessiveKeyLoss_iff_witness :
    ∃ v ∈ (validateConfigWriteIntegrity (.obj c7cur) (.obj c7prop)
        {}).violations,
      v.code = ViolationCode.excessiveKeyLoss :=
  ((writeGuard_excessiveKeyLoss_iff c7cur c7prop {} rfl).1).mpr
    ⟨by decide, by
      rw [show retainedOf c7cur c7prop = 1 from rfl,
        show (keysOf c7cur).length = 7 from rfl]
      norm_num⟩

/-- A current config serializing to more than 512 bytes. -/
def c8cur : List (String × JValue) :=
  [("data", .str (String.mk (List.replicate 600 'x')))]

/-- A tiny proposed config (same key, shrunk value). -/
def c8prop : List (String × JValue) := [("data", .null)]

set_option maxRecDepth 10000 in
/-- Witness for C8: a 611-byte current config shrunk to 13 bytes fires the
excessive-size-drop violation. -/
theorem writeGuard_excessiveSizeDrop_iff_witness :
    ∃ v ∈ (validateConfigWriteIntegrity (.obj c8cur) (.obj c8prop)
        {}).violations,
      v.code = ViolationCode.excessiveSizeDrop :=
  (writeGuard_excessiveSizeDrop_iff c8cur c8prop {} rfl).mpr
    ⟨by
      rw [show (JValue.stringify (.obj c8cur)).length = 611 from rfl]
      norm_num, by
      rw [show (JValue.stringify (.obj c8cur)).length = 611 from rfl,
        show (JValue.stringify (.obj c8prop)).length = 13 from rfl]
      norm_num⟩

/-- A current config whose only key `data` carries a large value. -/
def c9cur : List (String × JValue) :=
  [("data", .str (String.mk (List.replicate 600 'x')))]

/-- A proposed config retaining the key but shrinking the value. -/
def c9prop : List (String × JValue) := [("data", .null)]

/-- Witness for C9: all keys retained, yet value shrinkage leaves the
excessive-size-drop violation as the only possible one. -/
theorem writeGuard_key_superset_only_size_blocks_witness :
    (∀ v ∈ (validateConfigWriteIntegrity (.obj c9cur) (.obj c9prop)
        {}).violations,
      v.code = ViolationCode.excessiveSizeDrop) ∧
    (¬ ∃ v ∈ (validateConfigWriteIntegrity (.obj c9cur) (.obj c9prop)
        {}).violations,
      v.code = ViolationCode.droppedCriticalKeys) ∧
    (¬ ∃ v ∈ (validateConfigWriteIntegrity (.obj c9cur) (.obj c9prop)
        {}).violations,
      v.code = ViolationCode.excessiveKeyLoss) ∧
    (validateConfigWriteIntegrity (.obj c9cur) (.obj c9prop) {}).warnings = [] :=
  writeGuard_key_superset_only_size_blocks c9cur c9prop {} rfl (by decide)
